import Mathlib

/-
Shallow embedding of the Astro-API astrological core:
  app/utils.py           (normalize_degrees, zodiac_sign, nakshatra_and_pada)
  app/astrology.py       (calculate_confidence, generate_kundli assembly)
  app/compatibility.py   (reference tables, get_friendship_status, generate_ashta_koota)
  app/manglik_detector.py (ManglikDetector: sign, house, severity, cancellations)
  app/main.py            (manglik_compatibility_api combination logic)

Longitudes are modelled as rationals.  Python float modulo `x % y` with a
positive divisor returns `x - y * floor(x / y)`, and `int(...)` on the
non-negative values appearing here is the floor; both are modelled by `pymod`
and `Int.floor`.  Python dictionaries are modelled as association lists with
`List.lookup`; dict `.get(k, d)` is `(lookup k).getD d`.  Functions that raise
or return error dictionaries are modelled with `Except`.  Display-only fields
of the Python result dictionaries (the explanation / recommendation prose and
the rounded `mars_longitude` echo) are not carried in the result structures;
every field any claim speaks about is carried.
-/

/-- Python float modulo with positive divisor: `x - y * floor(x / y)`. -/
def pymod (x y : ℚ) : ℚ := x - y * (⌊x / y⌋ : ℤ)

/-! ### utils.py -/

/-- utils.SIGNS: the fixed ordered 12-sign list. -/
def SIGNS : List String :=
  ["Aries", "Taurus", "Gemini", "Cancer", "Leo", "Virgo",
   "Libra", "Scorpio", "Sagittarius", "Capricorn", "Aquarius", "Pisces"]

/-- utils.NAKSHATRAS: the Chart Generator side 27-name list (index 4 is
"Mrigashirsha"). -/
def NAKSHATRAS : List String :=
  ["Ashwini", "Bharani", "Krittika", "Rohini", "Mrigashirsha", "Ardra",
   "Punarvasu", "Pushya", "Ashlesha", "Magha", "Purva Phalguni",
   "Uttara Phalguni", "Hasta", "Chitra", "Swati", "Vishakha",
   "Anuradha", "Jyeshtha", "Mula", "Purva Ashadha", "Uttara Ashadha",
   "Shravana", "Dhanishta", "Shatabhisha", "Purva Bhadrapada",
   "Uttara Bhadrapada", "Revati"]

/-- utils.normalize_degrees: `degrees % 360`, then add 360 if negative. -/
def normalize_degrees (degrees : ℚ) : ℚ :=
  let d := pymod degrees 360
  if d < 0 then d + 360 else d

/-- utils.zodiac_sign: `SIGNS[int(norm // 30) % 12]`. -/
def zodiac_sign (longitude : ℚ) : String :=
  SIGNS.getD ((⌊normalize_degrees longitude / 30⌋).toNat % 12) ("")

/-- utils.nakshatra_and_pada: 27 segments of 13 + 1/3 degrees, pada from the
position inside the segment, clamped to 1..4. -/
def nakshatra_and_pada (moon_longitude : ℚ) : String × ℕ :=
  let norm_long := normalize_degrees moon_longitude
  let segment : ℚ := 13 + 1/3
  let nak_index := (⌊norm_long / segment⌋).toNat % NAKSHATRAS.length
  let pada := (⌊pymod norm_long segment / (segment / 4)⌋).toNat + 1
  (NAKSHATRAS.getD nak_index (""), max 1 (min 4 pada))

/-! ### astrology.py (post-ephemeris assembly) -/

/-- Python round-half-even on a rational (the behaviour of builtin `round`
on the exact value). -/
def pyround (q : ℚ) : ℤ :=
  if Int.fract q = 1/2 then (if 2 ∣ ⌊q⌋ then ⌊q⌋ else ⌊q⌋ + 1) else round q

/-- `round(q, 6)`: round to 6 decimal places. -/
def round6 (q : ℚ) : ℚ := ((pyround (q * 1000000) : ℤ) : ℚ) / 1000000

/-- astrology.calculate_confidence: 100 minus 5 per boundary proximity,
floored at 0. -/
def calculate_confidence (moon_long asc_long : ℚ) : ℤ :=
  let nakshatra_boundary : ℚ := 13 + 1/3
  let moon_pos := pymod moon_long nakshatra_boundary
  let c1 : ℤ := if moon_pos < 1/2 ∨ nakshatra_boundary - 1/2 < moon_pos then 100 - 5 else 100
  let asc_pos := pymod asc_long 30
  let c2 : ℤ := if asc_pos < 1/2 ∨ (59/2 : ℚ) < asc_pos then c1 - 5 else c1
  max c2 0

/-- The Chart record assembled by astrology.generate_kundli (the fields the
claims speak about: signs and nakshatra from the unrounded longitudes, the
stored planetary_longitudes rounded to 6 decimal places). -/
structure Chart where
  sun_sign : String
  moon_sign : String
  ascendant : String
  nakshatra : String
  nakshatra_pada : ℕ
  sun_longitude : ℚ
  moon_longitude : ℚ
  ascendant_longitude : ℚ
  confidence : ℤ
  deriving Repr, DecidableEq

/-- astrology.generate_kundli, from the point where the ephemeris collaborator
has produced the sidereal sun/moon/ascendant longitudes (the ephemeris itself
is the excluded black box): derives signs and nakshatra from the raw
longitudes and stores the longitudes rounded to 6 decimal places. -/
def generate_kundli (sun_long moon_long asc_long : ℚ) : Chart :=
  { sun_sign := zodiac_sign sun_long,
    moon_sign := zodiac_sign moon_long,
    ascendant := zodiac_sign asc_long,
    nakshatra := (nakshatra_and_pada moon_long).1,
    nakshatra_pada := (nakshatra_and_pada moon_long).2,
    sun_longitude := round6 sun_long,
    moon_longitude := round6 moon_long,
    ascendant_longitude := round6 asc_long,
    confidence := calculate_confidence moon_long asc_long }

/-! ### compatibility.py reference tables -/

def RASHI_ORDER : List String :=
  ["Aries", "Taurus", "Gemini", "Cancer", "Leo", "Virgo",
   "Libra", "Scorpio", "Sagittarius", "Capricorn", "Aquarius", "Pisces"]

/-- compatibility.NAKSHATRA_ORDER: the Compatibility Scorer side 27-name list
(index 4 is "Mrigashira"). -/
def NAKSHATRA_ORDER : List String :=
  ["Ashwini", "Bharani", "Krittika", "Rohini", "Mrigashira", "Ardra",
   "Punarvasu", "Pushya", "Ashlesha", "Magha", "Purva Phalguni", "Uttara Phalguni",
   "Hasta", "Chitra", "Swati", "Vishakha", "Anuradha", "Jyeshtha", "Mula",
   "Purva Ashadha", "Uttara Ashadha", "Shravana", "Dhanishta", "Shatabhisha",
   "Purva Bhadrapada", "Uttara Bhadrapada", "Revati"]

def VARNA_ORDER : List String := ["Shudra", "Vaishya", "Kshatriya", "Brahmin"]

def VARNA_BY_RASHI : List (String × String) :=
  [("Aries", "Kshatriya"), ("Leo", "Kshatriya"), ("Sagittarius", "Kshatriya"),
   ("Taurus", "Vaishya"), ("Virgo", "Vaishya"), ("Capricorn", "Vaishya"),
   ("Gemini", "Shudra"), ("Libra", "Shudra"), ("Aquarius", "Shudra"),
   ("Cancer", "Brahmin"), ("Scorpio", "Brahmin"), ("Pisces", "Brahmin")]

def VASHYA : List (String × List String) :=
  [("Aries", ["Leo", "Scorpio"]),
   ("Taurus", ["Cancer", "Libra"]),
   ("Gemini", ["Virgo"]),
   ("Cancer", ["Scorpio", "Pisces"]),
   ("Leo", ["Libra"]),
   ("Virgo", ["Pisces", "Gemini"]),
   ("Libra", ["Virgo", "Capricorn"]),
   ("Scorpio", ["Cancer"]),
   ("Sagittarius", ["Pisces"]),
   ("Capricorn", ["Aries", "Aquarius"]),
   ("Aquarius", ["Aries"]),
   ("Pisces", ["Capricorn"])]

def GRAHA_MAITRI_FRIEND : List (String × List String) :=
  [("Sun", ["Moon", "Mars", "Jupiter"]),
   ("Moon", ["Sun", "Mercury"]),
   ("Mars", ["Sun", "Moon", "Jupiter"]),
   ("Mercury", ["Sun", "Venus"]),
   ("Jupiter", ["Sun", "Moon", "Mars"]),
   ("Venus", ["Mercury", "Saturn"]),
   ("Saturn", ["Mercury", "Venus"])]

def GRAHA_NEUTRAL : List (String × List String) :=
  [("Sun", ["Mercury"]),
   ("Moon", ["Mars", "Jupiter", "Venus", "Saturn"]),
   ("Mars", ["Venus", "Saturn"]),
   ("Mercury", ["Mars", "Jupiter", "Saturn"]),
   ("Jupiter", ["Saturn"]),
   ("Venus", ["Mars", "Jupiter"]),
   ("Saturn", ["Jupiter"])]

def RASHI_LORD : List (String × String) :=
  [("Aries", "Mars"), ("Taurus", "Venus"), ("Gemini", "Mercury"),
   ("Cancer", "Moon"), ("Leo", "Sun"), ("Virgo", "Mercury"),
   ("Libra", "Venus"), ("Scorpio", "Mars"), ("Sagittarius", "Jupiter"),
   ("Capricorn", "Saturn"), ("Aquarius", "Saturn"), ("Pisces", "Jupiter")]

def GANA : List (String × String) :=
  [("Ashwini", "Deva"), ("Bharani", "Manushya"), ("Krittika", "Rakshasa"),
   ("Rohini", "Manushya"), ("Mrigashira", "Deva"), ("Ardra", "Manushya"),
   ("Punarvasu", "Deva"), ("Pushya", "Deva"), ("Ashlesha", "Rakshasa"),
   ("Magha", "Rakshasa"), ("Purva Phalguni", "Manushya"), ("Uttara Phalguni", "Manushya"),
   ("Hasta", "Deva"), ("Chitra", "Rakshasa"), ("Swati", "Deva"),
   ("Vishakha", "Rakshasa"), ("Anuradha", "Deva"), ("Jyeshtha", "Rakshasa"),
   ("Mula", "Rakshasa"), ("Purva Ashadha", "Manushya"), ("Uttara Ashadha", "Manushya"),
   ("Shravana", "Deva"), ("Dhanishta", "Rakshasa"), ("Shatabhisha", "Rakshasa"),
   ("Purva Bhadrapada", "Manushya"), ("Uttara Bhadrapada", "Manushya"), ("Revati", "Deva")]

def YONI : List (String × String) :=
  [("Ashwini", "Horse"), ("Bharani", "Elephant"), ("Krittika", "Sheep"),
   ("Rohini", "Serpent"), ("Mrigashira", "Deer"), ("Ardra", "Dog"),
   ("Punarvasu", "Cat"), ("Pushya", "Sheep"), ("Ashlesha", "Cat"),
   ("Magha", "Rat"), ("Purva Phalguni", "Rat"), ("Uttara Phalguni", "Cow"),
   ("Hasta", "Buffalo"), ("Chitra", "Tiger"), ("Swati", "Buffalo"),
   ("Vishakha", "Tiger"), ("Anuradha", "Deer"), ("Jyeshtha", "Deer"),
   ("Mula", "Dog"), ("Purva Ashadha", "Monkey"), ("Uttara Ashadha", "Mongoose"),
   ("Shravana", "Monkey"), ("Dhanishta", "Lion"), ("Shatabhisha", "Horse"),
   ("Purva Bhadrapada", "Lion"), ("Uttara Bhadrapada", "Cow"),
   ("Revati", "Elephant")]

def YONI_ENEMIES : List (String × String) :=
  [("Rat", "Cat"), ("Cat", "Rat"),
   ("Lion", "Elephant"), ("Elephant", "Lion"),
   ("Dog", "Deer"), ("Deer", "Dog"),
   ("Monkey", "Sheep"), ("Sheep", "Monkey"),
   ("Mongoose", "Serpent"), ("Serpent", "Mongoose"),
   ("Cow", "Tiger"), ("Tiger", "Cow"),
   ("Horse", "Buffalo"), ("Buffalo", "Horse"),
   ("Rat", "Lion"), ("Lion", "Rat")]

def NADI : List (String × String) :=
  [("Ashwini", "Adi"), ("Bharani", "Madhya"), ("Krittika", "Antya"),
   ("Rohini", "Adi"), ("Mrigashira", "Madhya"), ("Ardra", "Antya"),
   ("Punarvasu", "Adi"), ("Pushya", "Madhya"), ("Ashlesha", "Antya"),
   ("Magha", "Antya"), ("Purva Phalguni", "Adi"), ("Uttara Phalguni", "Madhya"),
   ("Hasta", "Antya"), ("Chitra", "Adi"), ("Swati", "Madhya"), ("Vishakha", "Antya"),
   ("Anuradha", "Adi"), ("Jyeshtha", "Madhya"), ("Mula", "Antya"),
   ("Purva Ashadha", "Adi"), ("Uttara Ashadha", "Madhya"), ("Shravana", "Antya"),
   ("Dhanishta", "Adi"), ("Shatabhisha", "Madhya"),
   ("Purva Bhadrapada", "Adi"), ("Uttara Bhadrapada", "Madhya"), ("Revati", "Antya")]

/-! ### compatibility.py scoring -/

/-- compatibility.get_friendship_status: directed Friend / Neutral / Enemy
lookup from the fixed tables (absent key behaves as an empty friend list, as
dict.get with default does). -/
def get_friendship_status (planet_from planet_to : String) : String :=
  if planet_to ∈ (GRAHA_MAITRI_FRIEND.lookup planet_from).getD [] then "Friend"
  else if planet_to ∈ (GRAHA_NEUTRAL.lookup planet_from).getD [] then "Neutral"
  else "Enemy"

/-- RASHI_LORD dict access (always hit after validation). -/
def rashi_lord (sign : String) : String := (RASHI_LORD.lookup sign).getD ("")

def varna_of (sign : String) : String := (VARNA_BY_RASHI.lookup sign).getD ("")

def gana_of (nak : String) : String := (GANA.lookup nak).getD ("")

def yoni_of (nak : String) : String := (YONI.lookup nak).getD ("")

def nadi_of (nak : String) : String := (NADI.lookup nak).getD ("")

/-- Koota 1: score 1 iff the groom varna rank is at least the bride varna
rank. -/
def varnaScore (bride_moon_sign groom_moon_sign : String) : ℕ :=
  if VARNA_ORDER.indexOf (varna_of bride_moon_sign) ≤ VARNA_ORDER.indexOf (varna_of groom_moon_sign)
  then 1 else 0

/-- Koota 2: 2 for identical signs or when the bride sign is in the groom
sign controlled list, else 0. -/
def vashyaScore (bride_moon_sign groom_moon_sign : String) : ℕ :=
  if bride_moon_sign = groom_moon_sign then 2
  else if bride_moon_sign ∈ (VASHYA.lookup groom_moon_sign).getD [] then 2
  else 0

/-- Koota 3: nakshatra count from bride to groom mod 27, reduced mod 9;
{0,2,4,6} score 0, the rest score 3. -/
def taraScore (b_nak_idx g_nak_idx : ℕ) : ℕ :=
  let count := (((g_nak_idx : ℤ) - (b_nak_idx : ℤ)) % 27).toNat
  let tara_val := count % 9
  if tara_val ∈ [0, 2, 4, 6] then 0 else 3

/-- Koota 4: 0 for an enemy yoni pair in either order, else 4. -/
def yoniScore (bride_nakshatra groom_nakshatra : String) : ℕ :=
  let y1 := yoni_of bride_nakshatra
  let y2 := yoni_of groom_nakshatra
  if (y1, y2) ∈ YONI_ENEMIES ∨ (y2, y1) ∈ YONI_ENEMIES then 0 else 4

/-- Koota 5: the 5-tier Graha Maitri scoring, returning the score together
with the lords_are_friendly flag consumed later by Bhakoot. -/
def grahaMaitriScore (l1 l2 : String) : ℕ × Bool :=
  if l1 = l2 then (5, true)
  else
    let rel_1_to_2 := get_friendship_status l1 l2
    let rel_2_to_1 := get_friendship_status l2 l1
    if rel_1_to_2 = "Friend" ∧ rel_2_to_1 = "Friend" then (5, true)
    else if (rel_1_to_2 = "Friend" ∧ rel_2_to_1 = "Neutral") ∨
            (rel_1_to_2 = "Neutral" ∧ rel_2_to_1 = "Friend") then (4, true)
    else if rel_1_to_2 = "Neutral" ∧ rel_2_to_1 = "Neutral" then (3, false)
    else if (rel_1_to_2 = "Neutral" ∧ rel_2_to_1 = "Enemy") ∨
            (rel_1_to_2 = "Enemy" ∧ rel_2_to_1 = "Neutral") then (2, false)
    else (0, false)

/-- Koota 6: same gana 6, Deva-Manushya 5, Manushya-Rakshasa 1, Deva-Rakshasa
0 (the unordered set comparisons of the source, spelled out). -/
def ganaScore (bride_nakshatra groom_nakshatra : String) : ℕ :=
  let g1 := gana_of bride_nakshatra
  let g2 := gana_of groom_nakshatra
  if g1 = g2 then 6
  else if (g1 = "Deva" ∧ g2 = "Manushya") ∨ (g1 = "Manushya" ∧ g2 = "Deva") then 5
  else if (g1 = "Manushya" ∧ g2 = "Rakshasa") ∨ (g1 = "Rakshasa" ∧ g2 = "Manushya") then 1
  else 0

/-- Koota 7: dosha at sign distances {1,11,4,8,5,7}; cancelled (7) when the
lords are friendly, else 0; 7 outright at non-dosha distances. -/
def bhakootScore (r1_idx r2_idx : ℕ) (lords_are_friendly : Bool) : ℕ :=
  let dist := (((r2_idx : ℤ) - (r1_idx : ℤ)) % 12).toNat
  if dist ∈ [1, 11, 4, 8, 5, 7] then (if lords_are_friendly then 7 else 0) else 7

/-- Koota 8: same nadi 0, different 8. -/
def nadiScore (bride_nakshatra groom_nakshatra : String) : ℕ :=
  if nadi_of bride_nakshatra = nadi_of groom_nakshatra then 0 else 8

/-- The result dictionary of generate_ashta_koota; the Python breakdown dict
becomes one field per koota. -/
structure KootaResult where
  total_gunas : ℕ
  max_gunas : ℕ
  varna : ℕ
  vashya : ℕ
  tara : ℕ
  yoni : ℕ
  graha_maitri : ℕ
  gana : ℕ
  bhakoot : ℕ
  nadi : ℕ
  verdict : String
  deriving Repr, DecidableEq

/-- The successful body of generate_ashta_koota (after validation). -/
def ashtaKootaScores (bride_moon_sign bride_nakshatra groom_moon_sign groom_nakshatra : String) :
    KootaResult :=
  let b_nak_idx := NAKSHATRA_ORDER.indexOf bride_nakshatra
  let g_nak_idx := NAKSHATRA_ORDER.indexOf groom_nakshatra
  let r1_idx := RASHI_ORDER.indexOf bride_moon_sign
  let r2_idx := RASHI_ORDER.indexOf groom_moon_sign
  let l1 := rashi_lord bride_moon_sign
  let l2 := rashi_lord groom_moon_sign
  let varna := varnaScore bride_moon_sign groom_moon_sign
  let vashya := vashyaScore bride_moon_sign groom_moon_sign
  let tara := taraScore b_nak_idx g_nak_idx
  let yoni := yoniScore bride_nakshatra groom_nakshatra
  let gm := grahaMaitriScore l1 l2
  let gana := ganaScore bride_nakshatra groom_nakshatra
  let bhakoot := bhakootScore r1_idx r2_idx gm.2
  let nadi := nadiScore bride_nakshatra groom_nakshatra
  let score := varna + vashya + tara + yoni + gm.1 + gana + bhakoot + nadi
  { total_gunas := score, max_gunas := 36,
    varna := varna, vashya := vashya, tara := tara, yoni := yoni,
    graha_maitri := gm.1, gana := gana, bhakoot := bhakoot, nadi := nadi,
    verdict := if 18 ≤ score then "Good" else "Low" }

/-- compatibility.generate_ashta_koota: validates the four inputs in source
order (raising ValueError is modelled as Except.error), then scores. -/
def generate_ashta_koota (bride_moon_sign bride_nakshatra groom_moon_sign groom_nakshatra : String) :
    Except String KootaResult :=
  if bride_nakshatra ∉ NAKSHATRA_ORDER then
    .error ("Invalid Bride Nakshatra: " ++ bride_nakshatra)
  else if groom_nakshatra ∉ NAKSHATRA_ORDER then
    .error ("Invalid Groom Nakshatra: " ++ groom_nakshatra)
  else if bride_moon_sign ∉ RASHI_ORDER then
    .error ("Invalid Bride Moon Sign: " ++ bride_moon_sign)
  else if groom_moon_sign ∉ RASHI_ORDER then
    .error ("Invalid Groom Moon Sign: " ++ groom_moon_sign)
  else
    .ok (ashtaKootaScores bride_moon_sign bride_nakshatra groom_moon_sign groom_nakshatra)

/-! ### manglik_detector.py -/

def ZODIAC_SIGNS : List String :=
  ["Aries", "Taurus", "Gemini", "Cancer", "Leo", "Virgo",
   "Libra", "Scorpio", "Sagittarius", "Capricorn", "Aquarius", "Pisces"]

def MANGLIK_HOUSES : List ℕ := [1, 2, 4, 7, 8, 12]

def SEVERITY_SCORES : List (ℕ × ℕ) := [(1, 3), (2, 2), (4, 3), (7, 5), (8, 4), (12, 2)]

def MARS_OWN_SIGNS : List String := ["Aries", "Scorpio"]

def MARS_EXALTED_SIGN : String := "Capricorn"

def MARS_DEBILITATED_SIGN : String := "Cancer"

def MARS_FRIEND_SIGNS : List String := ["Leo", "Sagittarius", "Pisces"]

/-- ManglikDetector.get_sign_number: `int((longitude % 360) / 30) % 12`. -/
def get_sign_number (longitude : ℚ) : ℕ :=
  (⌊pymod longitude 360 / 30⌋).toNat % 12

/-- ManglikDetector.get_zodiac_sign. -/
def get_zodiac_sign (longitude : ℚ) : String :=
  ZODIAC_SIGNS.getD (get_sign_number longitude) ("")

/-- ManglikDetector.calculate_house_from_longitude: whole-sign house,
`((planet_sign - reference_sign) % 12) + 1`. -/
def calculate_house_from_longitude (planet_longitude reference_longitude : ℚ) : ℕ :=
  (((get_sign_number planet_longitude : ℤ) - (get_sign_number reference_longitude : ℤ)) % 12).toNat + 1

/-- SEVERITY_SCORES.get(house, 0). -/
def severityWeight (house : ℕ) : ℕ := (SEVERITY_SCORES.lookup house).getD 0

/-- The severity tier chain executed when is_manglik holds. -/
def severityTier (severity_score : ℕ) : String :=
  if 5 ≤ severity_score then "Very High"
  else if 4 ≤ severity_score then "High"
  else if 3 ≤ severity_score then "Medium"
  else if 2 ≤ severity_score then "Low"
  else "Mild"

/-- ManglikDetector._calculate_dosha_strength: severity reduced by 1.5 per
cancellation, bucketed. -/
def calculate_dosha_strength (severity_score : ℕ) (cancellation_count : ℕ) : String :=
  if severity_score = 0 then "No Dosha"
  else
    let effective_score : ℚ := (severity_score : ℚ) - (cancellation_count : ℚ) * (3/2)
    if effective_score ≤ 0 then "Fully Cancelled"
    else if effective_score ≤ 1 then "Negligible"
    else if effective_score ≤ 2 then "Weak"
    else if effective_score ≤ 3 then "Moderate"
    else if effective_score ≤ 4 then "Strong"
    else "Very Strong"

/-- ManglikDetector._check_parashara_cancellations, appending reasons in
source order. -/
def check_parashara_cancellations (mars_sign : String) (mars_house_from_lagna : ℕ)
    (mars_house_from_moon : Option ℕ) (planetary_longitudes : List (String × ℚ)) :
    List String :=
  (if mars_sign ∈ MARS_OWN_SIGNS then
     ["Swakshetra: Mars in own sign (" ++ mars_sign ++ ") - significantly reduces dosha per Parashara"]
   else []) ++
  (if mars_sign = MARS_EXALTED_SIGN then
     ["Uccha: Mars exalted in Capricorn - greatly reduces dosha effects (Parashara principle)"]
   else []) ++
  (if mars_sign ∈ MARS_FRIEND_SIGNS then
     ["Mitra Rashi: Mars in friendly sign (" ++ mars_sign ++ ") - reduces dosha intensity"]
   else []) ++
  (match mars_house_from_moon with
   | some hm =>
     if mars_house_from_lagna ∈ MANGLIK_HOUSES ∧ hm ∉ MANGLIK_HOUSES then
       ["Partial Dosha: Mars creates dosha only from Lagna, not from Moon - reduces intensity"]
     else if hm ∈ MANGLIK_HOUSES ∧ mars_house_from_lagna ∉ MANGLIK_HOUSES then
       ["Partial Dosha: Mars creates dosha only from Moon, not from Lagna - reduces intensity"]
     else []
   | none => []) ++
  (let mars_longitude := (planetary_longitudes.lookup ("mars")).getD 0
   let mars_sign_num := get_sign_number mars_longitude
   (match planetary_longitudes.lookup ("jupiter") with
    | some j =>
      if get_sign_number j = mars_sign_num then
        ["Guru Yukti: Mars conjunct Jupiter - benefic influence reduces dosha (Parashara)"]
      else []
    | none => []) ++
   (match planetary_longitudes.lookup ("venus") with
    | some v =>
      if get_sign_number v = mars_sign_num then
        ["Shukra Yukti: Mars conjunct Venus - reduces dosha intensity"]
      else []
    | none => []))

/-- The error dictionary returned by detect_manglik on a failed lookup: an
error string, is_manglik explicitly null, and a message. -/
structure ManglikError where
  error : String
  is_manglik : Option Bool
  message : String
  deriving Repr, DecidableEq

/-- The success dictionary of detect_manglik (explanation / recommendation
prose and the rounded mars_longitude echo omitted). -/
structure ManglikResult where
  is_manglik : Bool
  system : String
  mars_house_from_lagna : ℕ
  mars_house_from_moon : Option ℕ
  is_manglik_from_lagna : Bool
  is_manglik_from_moon : Bool
  mars_sign : String
  mars_rashi_number : ℕ
  severity : String
  severity_score : ℕ
  cancellations : List String
  is_cancelled : Bool
  dosha_strength : String
  deriving Repr, DecidableEq

/-- ManglikDetector.detect_manglik on a planetary_longitudes mapping (the
kundli_data wrapper dict stripped to its only consulted key). -/
def detect_manglik (check_from_moon : Bool) (planetary_longitudes : List (String × ℚ)) :
    Except ManglikError ManglikResult :=
  match planetary_longitudes.lookup ("mars") with
  | none =>
    .error { error := "Mars longitude not found in Kundli data",
             is_manglik := none,
             message := "Please ensure \x27mars\x27 is present in planetary_longitudes" }
  | some mars_longitude =>
    match planetary_longitudes.lookup ("ascendant") with
    | none =>
      .error { error := "Ascendant longitude not found in Kundli data",
               is_manglik := none,
               message := "Please ensure \x27ascendant\x27 is present in planetary_longitudes" }
    | some ascendant_longitude =>
      let moon_longitude := planetary_longitudes.lookup ("moon")
      let mars_house_from_lagna := calculate_house_from_longitude mars_longitude ascendant_longitude
      let mars_sign := get_zodiac_sign mars_longitude
      let mars_rashi_number := get_sign_number mars_longitude + 1
      let is_manglik_from_lagna : Bool := decide (mars_house_from_lagna ∈ MANGLIK_HOUSES)
      let mars_house_from_moon : Option ℕ :=
        if check_from_moon then
          moon_longitude.map (fun m => calculate_house_from_longitude mars_longitude m)
        else none
      let is_manglik_from_moon : Bool :=
        match mars_house_from_moon with
        | some hm => decide (hm ∈ MANGLIK_HOUSES)
        | none => false
      let is_manglik := is_manglik_from_lagna || is_manglik_from_moon
      let severity_score : ℕ :=
        if is_manglik then
          max (severityWeight mars_house_from_lagna)
            (match mars_house_from_moon with
             | some hm => severityWeight hm
             | none => 0)
        else 0
      let severity := if is_manglik then severityTier severity_score else "None"
      let cancellations :=
        check_parashara_cancellations mars_sign mars_house_from_lagna mars_house_from_moon
          planetary_longitudes
      .ok { is_manglik := is_manglik,
            system := "Parashara (Parashari)",
            mars_house_from_lagna := mars_house_from_lagna,
            mars_house_from_moon := mars_house_from_moon,
            is_manglik_from_lagna := is_manglik_from_lagna,
            is_manglik_from_moon := is_manglik_from_moon,
            mars_sign := mars_sign,
            mars_rashi_number := mars_rashi_number,
            severity := severity,
            severity_score := severity_score,
            cancellations := cancellations,
            is_cancelled := decide (0 < cancellations.length),
            dosha_strength := calculate_dosha_strength severity_score cancellations.length }

/-! ### main.py manglik_compatibility_api -/

/-- The response record of the paired manglik compatibility endpoint. -/
structure ManglikCompatibilityResponse where
  compatible : Bool
  compatibility_type : String
  reason : String
  person1_analysis : ManglikResult
  person2_analysis : ManglikResult
  recommendation : String
  deriving Repr, DecidableEq

/-- main.manglik_compatibility_api: runs detect_manglik on each longitude
set; any underlying error dictionary becomes the 400 "Invalid data" failure;
otherwise combines the two boolean flags into the three categorical
outcomes. -/
def manglik_compatibility (person1_longitudes person2_longitudes : List (String × ℚ)) :
    Except String ManglikCompatibilityResponse :=
  match detect_manglik true person1_longitudes, detect_manglik true person2_longitudes with
  | .ok result1, .ok result2 =>
    if result1.is_manglik && result2.is_manglik then
      .ok { compatible := true,
            compatibility_type := "Ubhaya Manglik (Both Manglik)",
            reason := "Both partners have Manglik Dosha - mutual cancellation",
            person1_analysis := result1,
            person2_analysis := result2,
            recommendation := "Favorable per Parashara. Consult Jyotishi." }
    else if !result1.is_manglik && !result2.is_manglik then
      .ok { compatible := true,
            compatibility_type := "No Manglik Dosha",
            reason := "Neither partner has Manglik Dosha",
            person1_analysis := result1,
            person2_analysis := result2,
            recommendation := "No Manglik concerns." }
    else
      .ok { compatible := false,
            compatibility_type := "Partial Manglik",
            reason := "Only one partner has Manglik Dosha",
            person1_analysis := result1,
            person2_analysis := result2,
            recommendation := "Perform Kumbh Vivah or remedies. Consult Jyotishi." }
  | _, _ => .error "Invalid data"

/-! ### Concrete inputs and expected outputs used below -/

/-- The C1 input mapping: mars 190.5, ascendant 49.464221, no moon. -/
def c1Input : List (String × ℚ) := [("mars", 381/2), ("ascendant", 49464221/1000000)]

/-- What detect_manglik actually returns on c1Input: Mars at 190.5 degrees is
in sign index 6, which is Libra in ZODIAC_SIGNS, so no own-sign cancellation
fires and the cancellation list is empty. -/
def c1Result : ManglikResult :=
  { is_manglik := false,
    system := "Parashara (Parashari)",
    mars_house_from_lagna := 6,
    mars_house_from_moon := none,
    is_manglik_from_lagna := false,
    is_manglik_from_moon := false,
    mars_sign := "Libra",
    mars_rashi_number := 7,
    severity := "None",
    severity_score := 0,
    cancellations := [],
    is_cancelled := false,
    dosha_strength := "No Dosha" }

/-- Witness input for the severity claims: mars and ascendant both at 0
degrees, Mars in house 1. -/
def c5Input : List (String × ℚ) := [("mars", 0), ("ascendant", 0)]

def c5Result : ManglikResult :=
  { is_manglik := true,
    system := "Parashara (Parashari)",
    mars_house_from_lagna := 1,
    mars_house_from_moon := none,
    is_manglik_from_lagna := true,
    is_manglik_from_moon := false,
    mars_sign := "Aries",
    mars_rashi_number := 1,
    severity := "Medium",
    severity_score := 3,
    cancellations :=
      ["Swakshetra: Mars in own sign (Aries) - significantly reduces dosha per Parashara"],
    is_cancelled := true,
    dosha_strength := "Weak" }

/-- Witness input with Mars in house 7 from Lagna: mars 100, ascendant 290. -/
def c10Input : List (String × ℚ) := [("mars", 100), ("ascendant", 290)]

def c10Result : ManglikResult :=
  { is_manglik := true,
    system := "Parashara (Parashari)",
    mars_house_from_lagna := 7,
    mars_house_from_moon := none,
    is_manglik_from_lagna := true,
    is_manglik_from_moon := false,
    mars_sign := "Cancer",
    mars_rashi_number := 4,
    severity := "Very High",
    severity_score := 5,
    cancellations := [],
    is_cancelled := false,
    dosha_strength := "Very Strong" }

/-- The Ashta-Koota result for bride Aries/Ashwini and groom Taurus/Krittika,
computed by the scorer. -/
def kootaExample : KootaResult :=
  { total_gunas := 15, max_gunas := 36,
    varna := 0, vashya := 0, tara := 0, yoni := 4,
    graha_maitri := 3, gana := 0, bhakoot := 0, nadi := 8,
    verdict := "Low" }

/-! ## Theorems -/

/-! ### Evaluation lemmas for concrete sign numbers -/

theorem get_sign_number_c1_mars : get_sign_number (381/2) = 6 := by
  unfold get_sign_number pymod
  norm_num
  decide

theorem get_sign_number_c1_asc : get_sign_number (49464221/1000000) = 1 := by
  unfold get_sign_number pymod
  norm_num

theorem get_sign_number_zero : get_sign_number 0 = 0 := by
  unfold get_sign_number pymod
  norm_num

theorem get_sign_number_100 : get_sign_number 100 = 3 := by
  unfold get_sign_number pymod
  norm_num
  decide

theorem get_sign_number_290 : get_sign_number 290 = 9 := by
  unfold get_sign_number pymod
  norm_num
  decide

theorem severityWeight_mem_scores (h : ℕ) :
    severityWeight h = 0 ∨ severityWeight h = 2 ∨ severityWeight h = 3 ∨
    severityWeight h = 4 ∨ severityWeight h = 5 := by
  simp only [severityWeight, SEVERITY_SCORES, List.lookup]
  repeat' split <;> simp_all

theorem severityWeight_of_manglik_house (h : ℕ) (hh : h ∈ MANGLIK_HOUSES) :
    2 ≤ severityWeight h := by
  simp only [MANGLIK_HOUSES, List.mem_cons, List.not_mem_nil, or_false] at hh
  rcases hh with rfl | rfl | rfl | rfl | rfl | rfl <;> decide

theorem severityTier_ge_five (s : ℕ) (h : 5 ≤ s) : severityTier s = "Very High" := by
  unfold severityTier
  rw [if_pos h]

theorem severityTier_ne_mild (s : ℕ) (h : 2 ≤ s) : severityTier s ≠ "Mild" := by
  unfold severityTier
  (repeat' split) <;> first | decide | omega

theorem max_mem_severity_scores (a b : ℕ)
    (ha : a = 0 ∨ a = 2 ∨ a = 3 ∨ a = 4 ∨ a = 5)
    (hb : b = 0 ∨ b = 2 ∨ b = 3 ∨ b = 4 ∨ b = 5) :
    max a b = 0 ∨ max a b = 2 ∨ max a b = 3 ∨ max a b = 4 ∨ max a b = 5 := by
  rcases ha with rfl | rfl | rfl | rfl | rfl <;>
    rcases hb with rfl | rfl | rfl | rfl | rfl <;> decide

/-- C7: for every input mapping lacking the mars key, or containing mars but
lacking the ascendant key, detect_manglik returns a structured error (an
error field present and is_manglik set to null) rather than raising, and
when both keys are present it never returns an error result. -/
theorem c7_missing_field_handling (pl : List (String × ℚ)) :
    (pl.lookup ("mars") = none →
      ∃ e, detect_manglik true pl = Except.error e ∧ e.is_manglik = none ∧
        e.error = "Mars longitude not found in Kundli data") ∧
    (∀ m, pl.lookup ("mars") = some m → pl.lookup ("ascendant") = none →
      ∃ e, detect_manglik true pl = Except.error e ∧ e.is_manglik = none ∧
        e.error = "Ascendant longitude not found in Kundli data") ∧
    (∀ m a, pl.lookup ("mars") = some m → pl.lookup ("ascendant") = some a →
      ∃ r, detect_manglik true pl = Except.ok r) := by
  refine ⟨fun hm => ?_, fun m hm ha => ?_, fun m a hm ha => ?_⟩
  · unfold detect_manglik
    rw [hm]
    exact ⟨_, rfl, rfl, rfl⟩
  · unfold detect_manglik
    rw [hm, ha]
    exact ⟨_, rfl, rfl, rfl⟩
  · unfold detect_manglik
    rw [hm, ha]
    exact ⟨_, rfl⟩

/-- C7 witness at concrete inputs: a mapping with only an ascendant, a
mapping with only mars, and a mapping with both. -/
theorem c7_missing_field_handling_witness :
    (∃ e, detect_manglik true [("ascendant", (0 : ℚ))] = Except.error e ∧
      e.is_manglik = none ∧ e.error = "Mars longitude not found in Kundli data") ∧
    (∃ e, detect_manglik true [("mars", (0 : ℚ))] = Except.error e ∧
      e.is_manglik = none ∧ e.error = "Ascendant longitude not found in Kundli data") ∧
    (∃ r, detect_manglik true [("mars", (0 : ℚ)), ("ascendant", 0)] = Except.ok r) :=
  ⟨(c7_missing_field_handling _).1 rfl,
   (c7_missing_field_handling _).2.1 0 rfl rfl,
   (c7_missing_field_handling _).2.2 0 0 rfl rfl⟩

theorem detect_manglik_c1Input_eval : detect_manglik true c1Input = Except.ok c1Result := by
  simp [detect_manglik, c1Input, c1Result, List.lookup, calculate_house_from_longitude,
    get_zodiac_sign, get_sign_number_c1_mars, get_sign_number_c1_asc, MANGLIK_HOUSES,
    ZODIAC_SIGNS, severityWeight, SEVERITY_SCORES, severityTier,
    check_parashara_cancellations, MARS_OWN_SIGNS, MARS_EXALTED_SIGN, MARS_FRIEND_SIGNS,
    calculate_dosha_strength]

/-- C1 counterexample: on the input mapping {mars: 190.5, ascendant:
49.464221} with no moon key, detect_manglik returns an empty cancellations
list (so no Swakshetra entry), because the sign of longitude 190.5 is Libra,
not Scorpio: sign index 6 names Libra in the detector's sign list. -/
theorem c1_swakshetra_counterexample :
    detect_manglik true c1Input = Except.ok c1Result ∧
    c1Result.cancellations = [] ∧
    c1Result.mars_sign ≠ "Scorpio" ∧
    ZODIAC_SIGNS.getD 6 ("") = "Libra" :=
  ⟨detect_manglik_c1Input_eval, rfl, by decide, by decide⟩

/-- C1 amended: for the input planetary-longitude mapping {mars: 190.5,
ascendant: 49.464221} with no moon key, detect_manglik returns is_manglik =
false with severity "None", and its cancellations list is empty: Mars's sign
for longitude 190.5 degrees is sign index 6, which is Libra, not one of
Mars's own signs. -/
theorem c1_manglik_example_amended :
    detect_manglik true c1Input = Except.ok c1Result ∧
    c1Result.is_manglik = false ∧
    c1Result.severity = "None" ∧
    c1Result.cancellations = [] ∧
    c1Result.mars_sign = "Libra" ∧
    get_sign_number (381/2) = 6 ∧
    "Libra" ∉ MARS_OWN_SIGNS :=
  ⟨detect_manglik_c1Input_eval, rfl, rfl, rfl, rfl, get_sign_number_c1_mars, by decide⟩

theorem detect_manglik_c5Input_eval : detect_manglik true c5Input = Except.ok c5Result := by
  simp [detect_manglik, c5Input, c5Result, List.lookup, calculate_house_from_longitude,
    get_zodiac_sign, get_sign_number_zero, MANGLIK_HOUSES, ZODIAC_SIGNS, severityWeight,
    SEVERITY_SCORES, severityTier, check_parashara_cancellations, MARS_OWN_SIGNS,
    MARS_EXALTED_SIGN, MARS_FRIEND_SIGNS, calculate_dosha_strength]
  norm_num

theorem detect_manglik_c10Input_eval : detect_manglik true c10Input = Except.ok c10Result := by
  simp [detect_manglik, c10Input, c10Result, List.lookup, calculate_house_from_longitude,
    get_zodiac_sign, get_sign_number_100, get_sign_number_290, MANGLIK_HOUSES, ZODIAC_SIGNS,
    severityWeight, SEVERITY_SCORES, severityTier, check_parashara_cancellations,
    MARS_OWN_SIGNS, MARS_EXALTED_SIGN, MARS_FRIEND_SIGNS, calculate_dosha_strength]
  norm_num

/-- C5: on every successful detection, when the affliction flag is true the
severity score is the maximum of the fixed weights of the Lagna house and,
when computed, the Moon house (a non-afflicting house weighs 0 through the
default, an absent reference contributes 0), and the tier follows the stated
thresholds; when the flag is false, the score is 0 and the tier is "None".
The weight table is exactly 7 to 5, 8 to 4, 1 to 3, 4 to 3, 2 to 2, 12 to 2,
and 0 outside the afflicting houses. -/
theorem c5_severity_rule (pl : List (String × ℚ)) (r : ManglikResult)
    (h : detect_manglik true pl = Except.ok r) :
    (r.is_manglik = true →
      r.severity_score =
        max (severityWeight r.mars_house_from_lagna)
          (match r.mars_house_from_moon with
           | some hm => severityWeight hm
           | none => 0) ∧
      (5 ≤ r.severity_score → r.severity = "Very High") ∧
      (r.severity_score = 4 → r.severity = "High") ∧
      (r.severity_score = 3 → r.severity = "Medium") ∧
      (r.severity_score = 2 → r.severity = "Low") ∧
      (r.severity_score = 1 → r.severity = "Mild")) ∧
    (r.is_manglik = false → r.severity_score = 0 ∧ r.severity = "None") ∧
    (severityWeight 7 = 5 ∧ severityWeight 8 = 4 ∧ severityWeight 1 = 3 ∧
      severityWeight 4 = 3 ∧ severityWeight 2 = 2 ∧ severityWeight 12 = 2) ∧
    (∀ house, house ∉ MANGLIK_HOUSES → severityWeight house = 0) := by
  cases hm : pl.lookup ("mars") with
  | none => simp [detect_manglik, hm] at h
  | some mars =>
    cases ha : pl.lookup ("ascendant") with
    | none => simp [detect_manglik, hm, ha] at h
    | some asc =>
      simp only [detect_manglik, hm, ha, Except.ok.injEq] at h
      subst h
      dsimp only
      try simp only [if_true]
      refine ⟨fun hman => ?_, fun hman => ?_, ⟨rfl, rfl, rfl, rfl, rfl, rfl⟩,
        fun house hnm => ?_⟩
      · refine ⟨by simp only [if_pos hman], fun h5 => ?_, fun h4 => ?_, fun h3 => ?_,
          fun h2 => ?_, fun h1 => ?_⟩
        · simp only [if_pos hman] at h5 ⊢
          exact severityTier_ge_five _ h5
        · simp only [if_pos hman] at h4 ⊢
          rw [h4]
          decide
        · simp only [if_pos hman] at h3 ⊢
          rw [h3]
          decide
        · simp only [if_pos hman] at h2 ⊢
          rw [h2]
          decide
        · simp only [if_pos hman] at h1 ⊢
          rw [h1]
          decide
      · simp [hman]
      · simp only [MANGLIK_HOUSES, List.mem_cons, List.not_mem_nil, or_false, not_or] at hnm
        simp only [severityWeight, SEVERITY_SCORES, List.lookup]
        (repeat' split) <;> simp_all

/-- C5 witness: on {mars: 0, ascendant: 0} Mars sits in house 1, the score is
the weight 3 of house 1, and the tier is "Medium". -/
theorem c5_severity_rule_witness :
    c5Result.is_manglik = true ∧ c5Result.severity_score = 3 ∧ c5Result.severity = "Medium" := by
  have h := c5_severity_rule c5Input c5Result detect_manglik_c5Input_eval
  exact ⟨rfl, rfl, (h.1 rfl).2.2.2.1 rfl⟩

theorem detect_manglik_shape (pl : List (String × ℚ)) (r : ManglikResult)
    (h : detect_manglik true pl = Except.ok r) :
    r.is_manglik = (r.is_manglik_from_lagna || r.is_manglik_from_moon) ∧
    r.is_manglik_from_lagna = decide (r.mars_house_from_lagna ∈ MANGLIK_HOUSES) ∧
    r.is_manglik_from_moon = (match r.mars_house_from_moon with
      | some x => decide (x ∈ MANGLIK_HOUSES)
      | none => false) ∧
    r.severity_score = (if r.is_manglik then
        max (severityWeight r.mars_house_from_lagna)
          (match r.mars_house_from_moon with
           | some x => severityWeight x
           | none => 0)
      else 0) ∧
    r.severity = (if r.is_manglik then severityTier r.severity_score else "None") := by
  cases hm : pl.lookup ("mars") with
  | none => simp [detect_manglik, hm] at h
  | some mars =>
    cases ha : pl.lookup ("ascendant") with
    | none => simp [detect_manglik, hm, ha] at h
    | some asc =>
      simp only [detect_manglik, hm, ha, Except.ok.injEq] at h
      subst h
      exact ⟨rfl, rfl, rfl, rfl, rfl⟩

/-- C10: on every successful detection severity_score lies in {0,2,3,4,5};
when the affliction flag is true it is at least 2 (every afflicting house
weighs at least 2); the tier "Mild" is never produced. -/
theorem c10_severity_floor (pl : List (String × ℚ)) (r : ManglikResult)
    (h : detect_manglik true pl = Except.ok r) :
    (r.is_manglik = true → 2 ≤ r.severity_score) ∧
    (r.severity_score = 0 ∨ r.severity_score = 2 ∨ r.severity_score = 3 ∨
      r.severity_score = 4 ∨ r.severity_score = 5) ∧
    r.severity ≠ "Mild" := by
  obtain ⟨h1, h2, h3, h4, h5⟩ := detect_manglik_shape pl r h
  have hge : r.is_manglik = true → 2 ≤ r.severity_score := by
    intro hman
    rw [h4, if_pos hman]
    rw [h1] at hman
    simp only [Bool.or_eq_true] at hman
    rcases hman with hL | hM
    · rw [h2] at hL
      exact le_trans (severityWeight_of_manglik_house _ (of_decide_eq_true hL)) (le_max_left _ _)
    · rw [h3] at hM
      cases hmo : r.mars_house_from_moon with
      | none => rw [hmo] at hM; simp at hM
      | some x =>
        rw [hmo] at hM
        simp only [decide_eq_true_eq] at hM
        simp only [hmo]
        exact le_trans (severityWeight_of_manglik_house _ hM) (le_max_right _ _)
  refine ⟨hge, ?_, ?_⟩
  · rw [h4]
    by_cases hman : r.is_manglik = true
    · rw [if_pos hman]
      refine max_mem_severity_scores _ _ (severityWeight_mem_scores _) ?_
      cases hmo : r.mars_house_from_moon with
      | none => exact Or.inl rfl
      | some x => exact severityWeight_mem_scores x
    · rw [if_neg hman]
      exact Or.inl rfl
  · rw [h5]
    by_cases hman : r.is_manglik = true
    · rw [if_pos hman]
      exact severityTier_ne_mild _ (hge hman)
    · rw [if_neg hman]
      decide

/-- C10 witness: on {mars: 100, ascendant: 290} Mars is in house 7, afflicted
with score 5 and tier "Very High", which is not "Mild". -/
theorem c10_severity_floor_witness :
    c10Result.is_manglik = true ∧ 2 ≤ c10Result.severity_score ∧ c10Result.severity ≠ "Mild" := by
  have h := c10_severity_floor c10Input c10Result detect_manglik_c10Input_eval
  exact ⟨rfl, h.1 rfl, h.2.2⟩

/-- C8: whenever both underlying detections succeed, the paired result is
compatible exactly when both or neither person is afflicted, and incompatible
when exactly one is; if either underlying detection returns an error
dictionary, the paired operation fails. -/
theorem c8_paired_compatibility (pl1 pl2 : List (String × ℚ)) :
    (∀ r1 r2, detect_manglik true pl1 = Except.ok r1 → detect_manglik true pl2 = Except.ok r2 →
      ∃ c, manglik_compatibility pl1 pl2 = Except.ok c ∧
        (r1.is_manglik = true → r2.is_manglik = true → c.compatible = true) ∧
        (r1.is_manglik = false → r2.is_manglik = false → c.compatible = true) ∧
        (r1.is_manglik ≠ r2.is_manglik → c.compatible = false)) ∧
    (∀ e1, detect_manglik true pl1 = Except.error e1 →
      manglik_compatibility pl1 pl2 = Except.error "Invalid data") ∧
    (∀ e2, detect_manglik true pl2 = Except.error e2 →
      manglik_compatibility pl1 pl2 = Except.error "Invalid data") := by
  refine ⟨fun r1 r2 h1 h2 => ?_, fun e1 h1 => ?_, fun e2 h2 => ?_⟩
  · unfold manglik_compatibility
    rw [h1, h2]
    cases hb1 : r1.is_manglik <;> cases hb2 : r2.is_manglik <;>
      simp only [hb1, hb2] <;>
      exact ⟨_, rfl, by simp_all, by simp_all, by simp_all⟩
  · unfold manglik_compatibility
    rw [h1]
  · unfold manglik_compatibility
    cases hd1 : detect_manglik true pl1 with
    | error e => rfl
    | ok r => rw [h2]

/-- C8 witness: with both persons given {mars: 0, ascendant: 0}, both are
afflicted and the paired result is compatible. -/
theorem c8_paired_compatibility_witness :
    ∃ c, manglik_compatibility c5Input c5Input = Except.ok c ∧
      (c5Result.is_manglik = true → c5Result.is_manglik = true → c.compatible = true) ∧
      (c5Result.is_manglik = false → c5Result.is_manglik = false → c.compatible = true) ∧
      (c5Result.is_manglik ≠ c5Result.is_manglik → c.compatible = false) :=
  (c8_paired_compatibility c5Input c5Input).1 c5Result c5Result
    detect_manglik_c5Input_eval detect_manglik_c5Input_eval

/-! ### Compatibility scorer lemmas -/

theorem varnaScore_le (bs gs : String) : varnaScore bs gs ≤ 1 := by
  simp only [varnaScore]
  split <;> omega

theorem vashyaScore_le (bs gs : String) : vashyaScore bs gs ≤ 2 := by
  simp only [vashyaScore]
  (repeat' split) <;> omega

theorem taraScore_le (b g : ℕ) : taraScore b g ≤ 3 := by
  simp only [taraScore]
  split <;> omega

theorem yoniScore_le (bn gn : String) : yoniScore bn gn ≤ 4 := by
  simp only [yoniScore]
  split <;> omega

theorem grahaMaitriScore_fst_le (l1 l2 : String) : (grahaMaitriScore l1 l2).1 ≤ 5 := by
  simp only [grahaMaitriScore]
  (repeat' split) <;> simp

theorem ganaScore_le (bn gn : String) : ganaScore bn gn ≤ 6 := by
  simp only [ganaScore]
  (repeat' split) <;> omega

theorem bhakootScore_le (r1 r2 : ℕ) (f : Bool) : bhakootScore r1 r2 f ≤ 7 := by
  simp only [bhakootScore]
  (repeat' split) <;> omega

theorem nadiScore_le (bn gn : String) : nadiScore bn gn ≤ 8 := by
  simp only [nadiScore]
  split <;> omega

/-- C2: for valid moon signs and nakshatras, generate_ashta_koota succeeds;
the reported total equals the sum of the eight reported sub-scores, lies in
[0, 36] (totals are naturals, so 0 is a lower bound by type), and the verdict
is "Good" exactly at total at least 18, else "Low". -/
theorem c2_total_gunas_bounds (bs bn gs gn : String)
    (hbs : bs ∈ RASHI_ORDER) (hgs : gs ∈ RASHI_ORDER)
    (hbn : bn ∈ NAKSHATRA_ORDER) (hgn : gn ∈ NAKSHATRA_ORDER) :
    ∃ r, generate_ashta_koota bs bn gs gn = Except.ok r ∧
      r.total_gunas = r.varna + r.vashya + r.tara + r.yoni + r.graha_maitri + r.gana +
        r.bhakoot + r.nadi ∧
      r.total_gunas ≤ 36 ∧
      (18 ≤ r.total_gunas → r.verdict = "Good") ∧
      (r.total_gunas < 18 → r.verdict = "Low") := by
  refine ⟨ashtaKootaScores bs bn gs gn, ?_, rfl, ?_, fun h18 => ?_, fun h18 => ?_⟩
  · unfold generate_ashta_koota
    rw [if_neg (not_not_intro hbn), if_neg (not_not_intro hgn),
        if_neg (not_not_intro hbs), if_neg (not_not_intro hgs)]
  · have h1 := varnaScore_le bs gs
    have h2 := vashyaScore_le bs gs
    have h3 := taraScore_le (NAKSHATRA_ORDER.indexOf bn) (NAKSHATRA_ORDER.indexOf gn)
    have h4 := yoniScore_le bn gn
    have h5 := grahaMaitriScore_fst_le (rashi_lord bs) (rashi_lord gs)
    have h6 := ganaScore_le bn gn
    have h7 := bhakootScore_le (RASHI_ORDER.indexOf bs) (RASHI_ORDER.indexOf gs)
      ((grahaMaitriScore (rashi_lord bs) (rashi_lord gs)).2)
    have h8 := nadiScore_le bn gn
    simp only [ashtaKootaScores]
    omega
  · simp only [ashtaKootaScores] at h18 ⊢
    rw [if_pos h18]
  · simp only [ashtaKootaScores] at h18 ⊢
    rw [if_neg (by omega)]

/-- C2 witness at the concrete profiles bride Aries/Ashwini and groom
Taurus/Krittika. -/
theorem c2_total_gunas_bounds_witness :
    ∃ r, generate_ashta_koota "Aries" "Ashwini" "Taurus" "Krittika" = Except.ok r ∧
      r.total_gunas = r.varna + r.vashya + r.tara + r.yoni + r.graha_maitri + r.gana +
        r.bhakoot + r.nadi ∧
      r.total_gunas ≤ 36 ∧
      (18 ≤ r.total_gunas → r.verdict = "Good") ∧
      (r.total_gunas < 18 → r.verdict = "Low") :=
  c2_total_gunas_bounds "Aries" "Ashwini" "Taurus" "Krittika"
    (by decide) (by decide) (by decide) (by decide)

theorem get_friendship_status_cases (a b : String) :
    get_friendship_status a b = "Friend" ∨ get_friendship_status a b = "Neutral" ∨
    get_friendship_status a b = "Enemy" := by
  unfold get_friendship_status
  (repeat' split) <;> simp

theorem grahaMaitri_friendly_iff (l1 l2 : String) :
    (grahaMaitriScore l1 l2).2 = true ↔
      (l1 = l2 ∨
       (get_friendship_status l1 l2 = "Friend" ∧ get_friendship_status l2 l1 = "Friend") ∨
       (get_friendship_status l1 l2 = "Friend" ∧ get_friendship_status l2 l1 = "Neutral") ∨
       (get_friendship_status l1 l2 = "Neutral" ∧ get_friendship_status l2 l1 = "Friend")) := by
  by_cases he : l1 = l2
  · simp [grahaMaitriScore, he]
  · rcases get_friendship_status_cases l1 l2 with ha | ha | ha <;>
      rcases get_friendship_status_cases l2 l1 with hb | hb | hb <;>
      simp [grahaMaitriScore, he, ha, hb]

/-- C3: the Graha Maitri sub-score evaluates the directed friendship in both
directions independently: identical lords 5; mutual Friend 5; Friend with
Neutral in either order 4; mutual Neutral 3; Neutral with Enemy in either
order 2; any Enemy paired with Friend, or mutual Enemy, 0.  The sub-score
reported by generate_ashta_koota is exactly this value on the two moon-sign
lords, and the friendship relation is direction-sensitive: Mars regards Moon
a Friend while Moon regards Mars as Neutral. -/
theorem c3_graha_maitri_directional (l1 l2 : String) :
    (l1 = l2 → (grahaMaitriScore l1 l2).1 = 5) ∧
    (l1 ≠ l2 →
      (get_friendship_status l1 l2 = "Friend" → get_friendship_status l2 l1 = "Friend" →
        (grahaMaitriScore l1 l2).1 = 5) ∧
      ((get_friendship_status l1 l2 = "Friend" ∧ get_friendship_status l2 l1 = "Neutral") ∨
       (get_friendship_status l1 l2 = "Neutral" ∧ get_friendship_status l2 l1 = "Friend") →
        (grahaMaitriScore l1 l2).1 = 4) ∧
      (get_friendship_status l1 l2 = "Neutral" → get_friendship_status l2 l1 = "Neutral" →
        (grahaMaitriScore l1 l2).1 = 3) ∧
      ((get_friendship_status l1 l2 = "Neutral" ∧ get_friendship_status l2 l1 = "Enemy") ∨
       (get_friendship_status l1 l2 = "Enemy" ∧ get_friendship_status l2 l1 = "Neutral") →
        (grahaMaitriScore l1 l2).1 = 2) ∧
      ((get_friendship_status l1 l2 = "Enemy" ∧ get_friendship_status l2 l1 = "Friend") ∨
       (get_friendship_status l1 l2 = "Friend" ∧ get_friendship_status l2 l1 = "Enemy") ∨
       (get_friendship_status l1 l2 = "Enemy" ∧ get_friendship_status l2 l1 = "Enemy") →
        (grahaMaitriScore l1 l2).1 = 0)) ∧
    (∀ bs bn gs gn r, generate_ashta_koota bs bn gs gn = Except.ok r →
      rashi_lord bs = l1 → rashi_lord gs = l2 →
      r.graha_maitri = (grahaMaitriScore l1 l2).1) ∧
    get_friendship_status "Mars" "Moon" ≠ get_friendship_status "Moon" "Mars" := by
  refine ⟨fun he => by simp [grahaMaitriScore, he],
    fun hne => ⟨fun hf1 hf2 => by simp [grahaMaitriScore, hne, hf1, hf2],
      fun h4 => ?_,
      fun hn1 hn2 => by simp [grahaMaitriScore, hne, hn1, hn2],
      fun h2c => ?_, fun h0 => ?_⟩,
    fun bs bn gs gn r hr hl1 hl2 => ?_, by decide⟩
  · rcases h4 with ⟨ha, hb⟩ | ⟨ha, hb⟩ <;> simp [grahaMaitriScore, hne, ha, hb]
  · rcases h2c with ⟨ha, hb⟩ | ⟨ha, hb⟩ <;> simp [grahaMaitriScore, hne, ha, hb]
  · rcases h0 with ⟨ha, hb⟩ | ⟨ha, hb⟩ | ⟨ha, hb⟩ <;> simp [grahaMaitriScore, hne, ha, hb]
  · subst hl1
    subst hl2
    unfold generate_ashta_koota at hr
    split_ifs at hr
    simp only [Except.ok.injEq] at hr
    subst hr
    rfl

/-- C3 witness: identical lords (Aries and Aries both ruled by Mars) give 5;
the Mercury/Mars pair is Neutral one way and Enemy the other and gives 2; the
Mars to Moon relation differs from the Moon to Mars relation. -/
theorem c3_graha_maitri_directional_witness :
    (grahaMaitriScore "Mars" "Mars").1 = 5 ∧
    (grahaMaitriScore "Mercury" "Mars").1 = 2 ∧
    get_friendship_status "Mars" "Moon" ≠ get_friendship_status "Moon" "Mars" :=
  ⟨(c3_graha_maitri_directional "Mars" "Mars").1 rfl,
   ((c3_graha_maitri_directional "Mercury" "Mars").2.1 (by decide)).2.2.2.1
     (Or.inl ⟨by decide, by decide⟩),
   (c3_graha_maitri_directional "Mars" "Moon").2.2.2⟩

theorem generate_ashta_koota_example_eval :
    generate_ashta_koota "Aries" "Ashwini" "Taurus" "Krittika" = Except.ok kootaExample := by
  rfl

/-- C4: on every successful scoring, when the moon-sign distance
(groomIdx - brideIdx) mod 12 is one of {1, 11, 4, 8, 5, 7} the Bhakoot
sub-score is 7 exactly when the Graha Maitri step marked the lords friendly
(identical lords, mutual Friend, or Friend-Neutral in either order) and 0
otherwise; at every other distance the sub-score is 7 regardless. -/
theorem c4_bhakoot_rule (bs bn gs gn : String) (r : KootaResult)
    (h : generate_ashta_koota bs bn gs gn = Except.ok r) :
    (((((RASHI_ORDER.indexOf gs : ℤ) - (RASHI_ORDER.indexOf bs : ℤ)) % 12).toNat ∈
        [1, 11, 4, 8, 5, 7]) →
      ((grahaMaitriScore (rashi_lord bs) (rashi_lord gs)).2 = true → r.bhakoot = 7) ∧
      ((grahaMaitriScore (rashi_lord bs) (rashi_lord gs)).2 = false → r.bhakoot = 0)) ∧
    (((((RASHI_ORDER.indexOf gs : ℤ) - (RASHI_ORDER.indexOf bs : ℤ)) % 12).toNat ∉
        [1, 11, 4, 8, 5, 7]) → r.bhakoot = 7) ∧
    ((grahaMaitriScore (rashi_lord bs) (rashi_lord gs)).2 = true ↔
      (rashi_lord bs = rashi_lord gs ∨
       (get_friendship_status (rashi_lord bs) (rashi_lord gs) = "Friend" ∧
        get_friendship_status (rashi_lord gs) (rashi_lord bs) = "Friend") ∨
       (get_friendship_status (rashi_lord bs) (rashi_lord gs) = "Friend" ∧
        get_friendship_status (rashi_lord gs) (rashi_lord bs) = "Neutral") ∨
       (get_friendship_status (rashi_lord bs) (rashi_lord gs) = "Neutral" ∧
        get_friendship_status (rashi_lord gs) (rashi_lord bs) = "Friend"))) := by
  unfold generate_ashta_koota at h
  split_ifs at h
  simp only [Except.ok.injEq] at h
  subst h
  refine ⟨fun hd => ⟨fun hf => ?_, fun hf => ?_⟩, fun hd => ?_,
    grahaMaitri_friendly_iff _ _⟩
  · simp only [ashtaKootaScores, bhakootScore]
    rw [if_pos hd, if_pos hf]
  · simp only [ashtaKootaScores, bhakootScore]
    rw [if_pos hd, if_neg (by simp [hf])]
  · simp only [ashtaKootaScores, bhakootScore]
    rw [if_neg hd]

/-- C4 witness: bride Aries/Ashwini, groom Taurus/Krittika: the distance is
1, a dosha position; the lords Mars and Venus are mutually Neutral, not
friendly, so Bhakoot scores 0. -/
theorem c4_bhakoot_rule_witness :
    ((((RASHI_ORDER.indexOf "Taurus" : ℤ) - (RASHI_ORDER.indexOf "Aries" : ℤ)) % 12).toNat ∈
      [1, 11, 4, 8, 5, 7]) ∧
    (grahaMaitriScore (rashi_lord "Aries") (rashi_lord "Taurus")).2 = false ∧
    kootaExample.bhakoot = 0 := by
  have h := c4_bhakoot_rule "Aries" "Ashwini" "Taurus" "Krittika" kootaExample
    generate_ashta_koota_example_eval
  exact ⟨by decide, by decide, (h.1 (by decide)).2 (by decide)⟩

/-! ### Arithmetic facts about pymod and normalize_degrees -/

theorem pymod_eq_mul_fract (x y : ℚ) (hy : y ≠ 0) : pymod x y = y * Int.fract (x / y) := by
  unfold pymod Int.fract
  field_simp

theorem pymod_nonneg (x y : ℚ) (hy : 0 < y) : 0 ≤ pymod x y := by
  rw [pymod_eq_mul_fract x y (ne_of_gt hy)]
  exact mul_nonneg (le_of_lt hy) (Int.fract_nonneg _)

theorem pymod_lt (x y : ℚ) (hy : 0 < y) : pymod x y < y := by
  rw [pymod_eq_mul_fract x y (ne_of_gt hy)]
  calc y * Int.fract (x / y) < y * 1 := by
        exact mul_lt_mul_of_pos_left (Int.fract_lt_one _) hy
    _ = y := mul_one y

theorem pymod_eq_self (x y : ℚ) (h0 : 0 ≤ x) (h1 : x < y) : pymod x y = x := by
  have hy : 0 < y := lt_of_le_of_lt h0 h1
  unfold pymod
  have hfl : ⌊x / y⌋ = 0 := by
    rw [Int.floor_eq_iff]
    constructor
    · push_cast
      positivity
    · have hx : x / y < 1 := (div_lt_one hy).mpr h1
      push_cast
      linarith
  rw [hfl]
  push_cast
  ring

theorem normalize_degrees_eq_pymod (d : ℚ) : normalize_degrees d = pymod d 360 := by
  unfold normalize_degrees
  rw [if_neg (not_lt_of_le (pymod_nonneg d 360 (by norm_num)))]

theorem normalize_degrees_eq_self (d : ℚ) (h0 : 0 ≤ d) (h1 : d < 360) :
    normalize_degrees d = d := by
  rw [normalize_degrees_eq_pymod, pymod_eq_self d 360 h0 h1]

/-- C9: every Moon longitude normalizing into the 5th nakshatra segment
[160/3, 200/3) is classified "Mrigashirsha" by the Chart Generator, that
name is not in the Compatibility Scorer's 27-name enumeration, and feeding it
to generate_ashta_koota always yields the invalid-nakshatra error. -/
theorem c9_mrigashirsha_mismatch (q : ℚ)
    (h1 : 160/3 ≤ normalize_degrees q) (h2 : normalize_degrees q < 200/3) :
    (nakshatra_and_pada q).1 = "Mrigashirsha" ∧
    "Mrigashirsha" ∉ NAKSHATRA_ORDER ∧
    (∀ bs gs gn, ∃ e, generate_ashta_koota bs "Mrigashirsha" gs gn = Except.error e) := by
  refine ⟨?_, by decide, fun bs gs gn => ?_⟩
  · have hfloor : ⌊normalize_degrees q / (13 + 1/3)⌋ = 4 := by
      rw [Int.floor_eq_iff]
      constructor
      · rw [le_div_iff (by norm_num : (0:ℚ) < 13 + 1/3)]
        push_cast
        linarith
      · rw [div_lt_iff (by norm_num : (0:ℚ) < 13 + 1/3)]
        push_cast
        linarith
    simp only [nakshatra_and_pada, hfloor]
    rfl
  · refine ⟨"Invalid Bride Nakshatra: " ++ "Mrigashirsha", ?_⟩
    unfold generate_ashta_koota
    rw [if_pos (by decide : ("Mrigashirsha" : String) ∉ NAKSHATRA_ORDER)]

/-- C9 witness at Moon longitude 60 degrees, inside the 5th segment. -/
theorem c9_mrigashirsha_mismatch_witness :
    (nakshatra_and_pada 60).1 = "Mrigashirsha" ∧
    (∃ e, generate_ashta_koota "Aries" "Mrigashirsha" "Taurus" "Ashwini" = Except.error e) := by
  have he : normalize_degrees 60 = 60 :=
    normalize_degrees_eq_self 60 (by norm_num) (by norm_num)
  have h := c9_mrigashirsha_mismatch 60 (by rw [he]; norm_num) (by rw [he]; norm_num)
  exact ⟨h.1, h.2.2 "Aries" "Taurus" "Ashwini"⟩

/-! ### Rounding analysis for the chart round-trip -/

theorem abs_pyround_sub (q : ℚ) : |((pyround q : ℤ) : ℚ) - q| ≤ 1/2 := by
  unfold pyround
  by_cases hf : Int.fract q = 1/2
  · rw [if_pos hf]
    have hfl : ((⌊q⌋ : ℤ) : ℚ) = q - Int.fract q := by
      unfold Int.fract
      ring
    by_cases he : 2 ∣ ⌊q⌋
    · rw [if_pos he, hfl, hf]
      rw [abs_le]
      constructor <;> linarith
    · rw [if_neg he]
      push_cast
      rw [hfl, hf]
      rw [abs_le]
      constructor <;> linarith
  · rw [if_neg hf]
    rw [abs_sub_comm]
    exact abs_sub_round q

theorem abs_round6_sub (q : ℚ) : |round6 q - q| ≤ 1/2000000 := by
  unfold round6
  have hr : ((pyround (q * 1000000) : ℤ) : ℚ) / 1000000 - q =
      (((pyround (q * 1000000) : ℤ) : ℚ) - q * 1000000) / 1000000 := by
    ring
  rw [hr, abs_div, abs_of_pos (by norm_num : (0:ℚ) < 1000000)]
  have h := abs_pyround_sub (q * 1000000)
  rw [div_le_iff₀ (by norm_num : (0:ℚ) < 1000000)]
  calc |((pyround (q * 1000000) : ℤ) : ℚ) - q * 1000000| ≤ 1/2 := h
    _ = 1/2000000 * 1000000 := by norm_num

/-- Core round-trip stability: rounding to 6 decimals cannot move a longitude
across a 30-degree sign boundary as long as the position inside its sign is
at least half an ulp away from both ends of the sign. -/
theorem zodiac_sign_round6 (L : ℚ) (h0 : 0 ≤ L) (h1 : L < 360)
    (h2 : 1/2000000 ≤ pymod L 30) (h3 : pymod L 30 < 30 - 1/2000000) :
    zodiac_sign (round6 L) = zodiac_sign L := by
  set k := ⌊L / 30⌋ with hk
  have hk0 : 0 ≤ k := Int.floor_nonneg.mpr (by positivity)
  have hk11 : k ≤ 11 := by
    have hq : L / 30 < 12 := by
      rw [div_lt_iff₀ (by norm_num : (0:ℚ) < 30)]
      linarith
    have h12 : k < (12:ℤ) := by
      rw [hk, Int.floor_lt]
      push_cast
      exact hq
    omega
  have hkQ : ((k : ℤ) : ℚ) ≤ 11 := by exact_mod_cast hk11
  have hkQ0 : (0:ℚ) ≤ ((k : ℤ) : ℚ) := by exact_mod_cast hk0
  have hs : pymod L 30 = L - 30 * ((k : ℤ) : ℚ) := by
    rw [hk]
    unfold pymod
    ring
  rw [hs] at h2 h3
  have hd := abs_le.mp (abs_round6_sub L)
  have hlow : 30 * ((k : ℤ) : ℚ) ≤ round6 L := by linarith [hd.1]
  have hup : round6 L < 30 * (((k : ℤ) : ℚ) + 1) := by linarith [hd.2]
  have hr0 : 0 ≤ round6 L := le_trans (by linarith) hlow
  have hr360 : round6 L < 360 := lt_of_lt_of_le hup (by linarith)
  have hfl2 : ⌊round6 L / 30⌋ = k := by
    rw [Int.floor_eq_iff]
    constructor
    · rw [le_div_iff₀ (by norm_num : (0:ℚ) < 30)]
      linarith
    · rw [div_lt_iff₀ (by norm_num : (0:ℚ) < 30)]
      push_cast
      linarith
  unfold zodiac_sign
  rw [normalize_degrees_eq_self _ hr0 hr360, normalize_degrees_eq_self _ h0 h1, hfl2]

theorem round6_counterexample_eval : round6 (299999999/10000000) = 30 := by
  unfold round6 pyround
  have hx : (299999999/10000000 : ℚ) * 1000000 = 299999999/10 := by norm_num
  rw [hx]
  have hfr : Int.fract (299999999/10 : ℚ) = 9/10 := by
    unfold Int.fract
    norm_num
  rw [if_neg (by rw [hfr]; norm_num)]
  have hrd : round (299999999/10 : ℚ) = 30000000 := by
    rw [round_eq]
    norm_num
  rw [hrd]
  norm_num

theorem zodiac_sign_30 : zodiac_sign 30 = "Taurus" := by
  unfold zodiac_sign
  rw [normalize_degrees_eq_self 30 (by norm_num) (by norm_num)]
  have h : ⌊(30:ℚ)/30⌋ = 1 := by norm_num
  rw [h]
  decide

theorem zodiac_sign_counterexample_input : zodiac_sign (299999999/10000000) = "Aries" := by
  unfold zodiac_sign
  rw [normalize_degrees_eq_self (299999999/10000000) (by norm_num) (by norm_num)]
  have h : ⌊(299999999/10000000:ℚ)/30⌋ = 0 := by
    rw [Int.floor_eq_iff]
    norm_num
  rw [h]
  decide

/-- C6 counterexample: a chart whose raw longitudes are all 29.9999999
degrees stores them rounded to 30.0; applying zodiac_sign to the stored
longitude yields Taurus while the chart stores Aries, so the round-trip
fails. -/
theorem c6_roundtrip_counterexample :
    zodiac_sign ((generate_kundli (299999999/10000000) (299999999/10000000)
        (299999999/10000000)).sun_longitude) ≠
      (generate_kundli (299999999/10000000) (299999999/10000000)
        (299999999/10000000)).sun_sign := by
  have h1 : (generate_kundli (299999999/10000000) (299999999/10000000)
      (299999999/10000000)).sun_longitude = round6 (299999999/10000000) := rfl
  have h2 : (generate_kundli (299999999/10000000) (299999999/10000000)
      (299999999/10000000)).sun_sign = zodiac_sign (299999999/10000000) := rfl
  rw [h1, h2, round6_counterexample_eval, zodiac_sign_30, zodiac_sign_counterexample_input]
  decide

/-- C6 amended: the round-trip holds for every chart whose raw longitudes
lie in [0, 360) and sit at least half an ulp of the 6-decimal rounding
(1/2000000 of a degree) away from both ends of their 30-degree sign: then
zodiacSign applied to each stored (rounded) longitude reproduces the sign
stored on the chart.  It can fail within half an ulp of a sign boundary, as
the counterexample shows. -/
theorem c6_roundtrip_amended (sun_long moon_long asc_long : ℚ)
    (hs0 : 0 ≤ sun_long) (hs1 : sun_long < 360)
    (hs2 : 1/2000000 ≤ pymod sun_long 30) (hs3 : pymod sun_long 30 < 30 - 1/2000000)
    (hm0 : 0 ≤ moon_long) (hm1 : moon_long < 360)
    (hm2 : 1/2000000 ≤ pymod moon_long 30) (hm3 : pymod moon_long 30 < 30 - 1/2000000)
    (ha0 : 0 ≤ asc_long) (ha1 : asc_long < 360)
    (ha2 : 1/2000000 ≤ pymod asc_long 30) (ha3 : pymod asc_long 30 < 30 - 1/2000000) :
    zodiac_sign ((generate_kundli sun_long moon_long asc_long).sun_longitude) =
      (generate_kundli sun_long moon_long asc_long).sun_sign ∧
    zodiac_sign ((generate_kundli sun_long moon_long asc_long).moon_longitude) =
      (generate_kundli sun_long moon_long asc_long).moon_sign ∧
    zodiac_sign ((generate_kundli sun_long moon_long asc_long).ascendant_longitude) =
      (generate_kundli sun_long moon_long asc_long).ascendant :=
  ⟨zodiac_sign_round6 sun_long hs0 hs1 hs2 hs3,
   zodiac_sign_round6 moon_long hm0 hm1 hm2 hm3,
   zodiac_sign_round6 asc_long ha0 ha1 ha2 ha3⟩

/-- C6 witness: a chart with all three longitudes at 10 degrees satisfies
the margin hypotheses and round-trips. -/
theorem c6_roundtrip_amended_witness :
    zodiac_sign ((generate_kundli 10 10 10).sun_longitude) =
      (generate_kundli 10 10 10).sun_sign ∧
    zodiac_sign ((generate_kundli 10 10 10).moon_longitude) =
      (generate_kundli 10 10 10).moon_sign ∧
    zodiac_sign ((generate_kundli 10 10 10).ascendant_longitude) =
      (generate_kundli 10 10 10).ascendant := by
  have hp : pymod 10 30 = 10 := pymod_eq_self 10 30 (by norm_num) (by norm_num)
  exact c6_roundtrip_amended 10 10 10
    (by norm_num) (by norm_num) (by rw [hp]; norm_num) (by rw [hp]; norm_num)
    (by norm_num) (by norm_num) (by rw [hp]; norm_num) (by rw [hp]; norm_num)
    (by norm_num) (by norm_num) (by rw [hp]; norm_num) (by rw [hp]; norm_num)
